import Mathlib

/-
Verification of the request/response communication layer of
`bluesky_queueserver_api` (file `bluesky_queueserver_api/comm_threads.py`).

The Python code is shallowly embedded: decoded payloads become the inductive
type `PyValue`, exceptions become the inductive type `PyError`, the HTTP
transport (an `httpx.Client`) becomes an oracle function from the assembled
request to a transport outcome, and each method of the client classes becomes
a Lean function returning its observable result together with a trace of the
external calls it made.

The repository file `comm_base.py` (base class `ReManagerAPI_HTTP_Base` /
`ReManagerAPI_ZMQ_Base`) is not part of the sources provided; definitions
taken from it are modelled from the specification and are marked
`Modelled from the spec:` in their doc comments.
-/

set_option maxHeartbeats 1000000

namespace QSApi

/-- A decoded Python payload value: `None`, a scalar, a sequence or a
mapping (mappings are modelled as association lists with string keys). -/
inductive PyValue where
  | noneV : PyValue
  | bool (b : Bool) : PyValue
  | int (n : Int) : PyValue
  | str (s : String) : PyValue
  | list (xs : List PyValue) : PyValue
  | map (kvs : List (String × PyValue)) : PyValue

/-- `d.get(k)` on a Python mapping modelled as an association list. -/
def mapGet (kvs : List (String × PyValue)) (k : String) : Option PyValue :=
  (kvs.find? (fun p => p.1 == k)).map (fun p => p.2)

/-- Python truthiness (`bool(v)`) of a decoded payload value. -/
def isTruthy : PyValue → Bool
  | .noneV => false
  | .bool b => b
  | .int n => n != 0
  | .str s => s != ""
  | .list xs => !xs.isEmpty
  | .map kvs => !kvs.isEmpty

mutual

/-- Python `repr(v)` of a decoded payload value (used by the failure message
`"Request failed: \x7bresponse!r\x7d"`; only reached for `None` and scalars). -/
def pyRepr : PyValue → String
  | .noneV => "None"
  | .bool b => if b then "True" else "False"
  | .int n => toString n
  | .str s => "'" ++ s ++ "'"
  | .list xs => "[" ++ pyReprList xs ++ "]"
  | .map kvs => "\x7b" ++ pyReprMap kvs ++ "\x7d"

/-- Comma-separated `repr` of the elements of a Python list. -/
def pyReprList : List PyValue → String
  | [] => ""
  | [v] => pyRepr v
  | v :: vs => pyRepr v ++ ", " ++ pyReprList vs

/-- Comma-separated `repr` of the key/value pairs of a Python dict. -/
def pyReprMap : List (String × PyValue) → String
  | [] => ""
  | [(k, v)] => "'" ++ k ++ "': " ++ pyRepr v
  | (k, v) :: kvs => "'" ++ k ++ "': " ++ pyRepr v ++ ", " ++ pyReprMap kvs

end

/-- Python `str(v)` of a decoded payload value. -/
def pyStr : PyValue → String
  | .str s => s
  | v => pyRepr v

/-- The `method` argument of a request: either a bare method name looked up in
the REST method-name table, or an explicit `(HTTP verb, endpoint)` pair. -/
inductive MethodSpec where
  | bare (name : String) : MethodSpec
  | pair (verb endpoint : String) : MethodSpec
deriving DecidableEq

/-- The request captured by the response validator:
`\x7b"method": method, "params": params\x7d`. -/
structure Request where
  method : MethodSpec
  params : Option PyValue

/-- The error taxonomy of the communication layer (`comm_base` exception
classes).  `otherError` stands for any exception outside the taxonomy. -/
inductive PyError where
  | requestFailedError (message : String) (request : Request) (response : PyValue) : PyError
  | requestTimeoutError (message : String) : PyError
  | requestParameterError (message : String) : PyError
  | httpRequestError (message : String) : PyError
  | httpClientError (message : String) : PyError
  | otherError (message : String) : PyError

/-- Modelled from the spec: `_check_response` of `ReManagerAPI_Base`
(`comm_base.py`, not among the provided sources).  With
`request_fail_exceptions` disabled it returns the response unchanged; with it
enabled it raises `RequestFailedError` for a `None`/scalar response (message
`"Request failed: \x7bresponse!r\x7d"`) and for a mapping whose `success` key
is falsy (message `"Request failed: "` followed by the response's `msg` when
present and non-empty, else `"(no error message)"`); a mapping without a
`success` key, a truthy `success`, and any non-mapping sequence are treated as
success.  The raised error captures the request and the response. -/
def check_response (request_fail_exceptions : Bool) (request : Request)
    (response : PyValue) : Except PyError PyValue :=
  if request_fail_exceptions then
    match response with
    | .map kvs =>
      match mapGet kvs "success" with
      | some v =>
        if isTruthy v then .ok (.map kvs)
        else
          let m :=
            match mapGet kvs "msg" with
            | some mv => if isTruthy mv then pyStr mv else "(no error message)"
            | none => "(no error message)"
          .error (.requestFailedError ("Request failed: " ++ m) request (.map kvs))
      | none => .ok (.map kvs)
    | .list xs => .ok (.list xs)
    | other => .error (.requestFailedError ("Request failed: " ++ pyRepr other) request other)
  else .ok response

/-- `response` is `None` or a non-mapping scalar. -/
def isScalar : PyValue → Bool
  | .noneV => true
  | .bool _ => true
  | .int _ => true
  | .str _ => true
  | .list _ => false
  | .map _ => false

/-- C3: for every mapping response whose `success` key is `True`, for every
mapping response without a `success` key, and for every non-mapping sequence
response (including the empty sequence), `_check_response` returns without
raising and leaves the response unchanged, for both settings of
`request_fail_exceptions`. -/
theorem C3_check_response_success_cases :
    (∀ (rfe : Bool) (req : Request) (kvs : List (String × PyValue)),
        mapGet kvs "success" = some (.bool true) →
        check_response rfe req (.map kvs) = .ok (.map kvs))
    ∧ (∀ (rfe : Bool) (req : Request) (kvs : List (String × PyValue)),
        mapGet kvs "success" = none →
        check_response rfe req (.map kvs) = .ok (.map kvs))
    ∧ (∀ (rfe : Bool) (req : Request) (xs : List PyValue),
        check_response rfe req (.list xs) = .ok (.list xs)) := by
  refine ⟨?_, ?_, ?_⟩
  · intro rfe req kvs h
    cases rfe <;> simp [check_response, h, isTruthy]
  · intro rfe req kvs h
    cases rfe <;> simp [check_response, h]
  · intro rfe req xs
    cases rfe <;> simp [check_response]

/-- Witness for C3 at concrete responses. -/
theorem C3_check_response_success_cases_witness :
    check_response true ⟨.bare "test", none⟩ (.map [("success", PyValue.bool true)])
      = .ok (.map [("success", PyValue.bool true)])
    ∧ check_response true ⟨.bare "test", none⟩ (.map [])
      = .ok (.map [])
    ∧ check_response false ⟨.bare "test", none⟩ (.list [PyValue.int 1])
      = .ok (.list [PyValue.int 1]) :=
  ⟨C3_check_response_success_cases.1 true ⟨.bare "test", none⟩ _ rfl,
   C3_check_response_success_cases.2.1 true ⟨.bare "test", none⟩ [] rfl,
   C3_check_response_success_cases.2.2 false ⟨.bare "test", none⟩ [PyValue.int 1]⟩

/-- C4: with `request_fail_exceptions` enabled, `_check_response` raises
`RequestFailedError` for every mapping with `success = False` — message
`"Request failed: "` followed by the `msg` value when present and non-empty,
else `"(no error message)"` — and for every `None` or non-mapping scalar
response — message `"Request failed: \x7bresponse!r\x7d"` —, capturing the
request and the response; with it disabled every response is returned
unchanged. -/
theorem C4_check_response_failure_cases :
    (∀ (req : Request) (kvs : List (String × PyValue)) (s : String),
        mapGet kvs "success" = some (.bool false) →
        mapGet kvs "msg" = some (.str s) → s ≠ "" →
        check_response true req (.map kvs)
          = .error (.requestFailedError ("Request failed: " ++ s) req (.map kvs)))
    ∧ (∀ (req : Request) (kvs : List (String × PyValue)),
        mapGet kvs "success" = some (.bool false) →
        (mapGet kvs "msg" = none ∨ mapGet kvs "msg" = some (.str "")) →
        check_response true req (.map kvs)
          = .error (.requestFailedError "Request failed: (no error message)" req (.map kvs)))
    ∧ (∀ (req : Request) (v : PyValue), isScalar v = true →
        check_response true req v
          = .error (.requestFailedError ("Request failed: " ++ pyRepr v) req v))
    ∧ (∀ (req : Request) (response : PyValue),
        check_response false req response = .ok response) := by
  refine ⟨?_, ?_, ?_, ?_⟩
  · intro req kvs s h1 h2 h3
    simp [check_response, h1, h2, isTruthy, pyStr, bne_iff_ne, h3]
  · intro req kvs h1 h2
    rcases h2 with h2 | h2 <;> simp [check_response, h1, h2, isTruthy] <;> rfl
  · intro req v hv
    cases v <;> simp_all [check_response, isScalar]
  · intro req response
    simp [check_response]

/-- Witness for C4 at concrete responses. -/
theorem C4_check_response_failure_cases_witness :
    check_response true ⟨.bare "test", none⟩
        (.map [("success", PyValue.bool false), ("msg", PyValue.str "Error occurred")])
      = .error (.requestFailedError "Request failed: Error occurred" ⟨.bare "test", none⟩
          (.map [("success", PyValue.bool false), ("msg", PyValue.str "Error occurred")]))
    ∧ check_response true ⟨.bare "test", none⟩ (.map [("success", PyValue.bool false)])
      = .error (.requestFailedError "Request failed: (no error message)" ⟨.bare "test", none⟩
          (.map [("success", PyValue.bool false)]))
    ∧ check_response true ⟨.bare "test", none⟩ (.int 10)
      = .error (.requestFailedError "Request failed: 10" ⟨.bare "test", none⟩ (.int 10))
    ∧ check_response false ⟨.bare "test", none⟩ PyValue.noneV = .ok PyValue.noneV :=
  ⟨C4_check_response_failure_cases.1 ⟨.bare "test", none⟩ _ "Error occurred" rfl rfl (by decide),
   C4_check_response_failure_cases.2.1 ⟨.bare "test", none⟩ _ rfl (Or.inl rfl),
   C4_check_response_failure_cases.2.2.1 ⟨.bare "test", none⟩ (.int 10) rfl,
   C4_check_response_failure_cases.2.2.2 ⟨.bare "test", none⟩ PyValue.noneV⟩

/-- The authorization-method enum `AuthorizationMethods` of the base class
(`NONE`, `API_KEY`, `TOKEN`). -/
inductive AuthorizationMethods where
  | NONE : AuthorizationMethods
  | API_KEY : AuthorizationMethods
  | TOKEN : AuthorizationMethods
deriving DecidableEq

/-- The stored authorization key: nothing, an API key, or a
`(access_token, refresh_token)` pair (`auth_key` of the base class). -/
inductive AuthKey where
  | noKey : AuthKey
  | apiKey (key : String) : AuthKey
  | tokenPair (access : String) (refresh : Option String) : AuthKey
deriving DecidableEq

/-- The authorization state of a client instance: the active method
(`auth_method`) and the stored key (`auth_key`). -/
structure AuthState where
  method : AuthorizationMethods
  key : AuthKey
deriving DecidableEq

/-- `auth_key[1]` when the stored key is a token pair: the refresh token. -/
def authRefreshToken (a : AuthState) : Option String :=
  match a.key with
  | .tokenPair _ refresh => refresh
  | _ => none

/-- Modelled from the spec: `_prepare_headers` of `ReManagerAPI_HTTP_Base`
(`comm_base.py`, not among the provided sources): a bearer-token or API-key
`Authorization` header injected from the authorization state. -/
def prepare_headers (auth : AuthState) : Option (List (String × String)) :=
  match auth.key with
  | .noKey => none
  | .apiKey k => some [("Authorization", "ApiKey " ++ k)]
  | .tokenPair access _ => some [("Authorization", "Bearer " ++ access)]

/-- Python truthiness of an optional headers mapping
(`None` and the empty mapping are falsy). -/
def truthyHeaders : Option (List (String × String)) → Bool
  | some l => !l.isEmpty
  | none => false

/-- `headers or self._prepare_headers()`: keep `headers` when truthy,
else fall back to the default. -/
def orHeaders (h d : Option (List (String × String))) :
    Option (List (String × String)) :=
  if truthyHeaders h then h else d

/-- Python truthiness of an optional payload value. -/
def truthyOptVal : Option PyValue → Bool
  | some v => isTruthy v
  | none => false

/-- Python truthiness of an optional raw-body string. -/
def truthyData : Option String → Bool
  | some s => s != ""
  | none => false

/-- Modelled from the spec: the fixed REST method-name →
`(HTTP verb, endpoint path)` table of `ReManagerAPI_HTTP_Base`
(`comm_base.py`, not among the provided sources).  The spec requires it to
cover at least item add/execute, login, session refresh, session revoke,
API-key new/info/delete, whoami, principal info, API scopes and logout; the
endpoint paths are placeholders, only membership of the names matters here. -/
def rest_api_method_map : List (String × String × String) :=
  [("queue_item_add", ("POST", "/api/queue/item/add")),
   ("queue_item_execute", ("POST", "/api/queue/item/execute")),
   ("login", ("POST", "/api/auth/provider/token")),
   ("session_refresh", ("POST", "/api/auth/session/refresh")),
   ("session_revoke", ("DELETE", "/api/auth/session/revoke")),
   ("apikey_new", ("POST", "/api/auth/apikey")),
   ("apikey_info", ("GET", "/api/auth/apikey")),
   ("apikey_delete", ("DELETE", "/api/auth/apikey")),
   ("whoami", ("GET", "/api/auth/whoami")),
   ("principal_info", ("GET", "/api/auth/principal")),
   ("api_scopes", ("GET", "/api/auth/scopes")),
   ("logout", ("POST", "/api/auth/logout"))]

/-- Lookup of a bare method name in the REST method-name table. -/
def tableLookup (tbl : List (String × String × String)) (name : String) :
    Option (String × String) :=
  (tbl.find? (fun e => e.1 == name)).map (fun e => e.2)

/-- Modelled from the spec: `_prepare_request` of `ReManagerAPI_HTTP_Base`
(`comm_base.py`, not among the provided sources): a bare method name is mapped
through the fixed table — an unknown name raises `RequestParameterError` with
message `"Unknown method '<name>'"` — and an explicit `(verb, endpoint)` pair
is used as given; `params` is passed through. -/
def prepare_request (method : MethodSpec) (params : Option PyValue) :
    Except PyError (String × String × Option PyValue) :=
  match method with
  | .pair verb endpoint => .ok (verb, endpoint, params)
  | .bare name =>
    match tableLookup rest_api_method_map name with
    | some (verb, endpoint) => .ok (verb, endpoint, params)
    | none => .error (.requestParameterError ("Unknown method '" ++ name ++ "'"))

/-- The keyword arguments of `bluesky_queueserver_api` `send_request` /
`_simple_request` (`method`, `params`, `url_params`, `headers`, `data`,
`timeout`), i.e. the `request_params` dictionary built by `send_request`. -/
structure RequestParams where
  method : MethodSpec
  params : Option PyValue
  url_params : Option PyValue
  headers : Option (List (String × String))
  data : Option String
  timeout : Option ℚ

/-- The fully assembled HTTP request handed to `self._client.request`:
verb, endpoint and the `kwargs` dictionary (`json` always, `params`/`headers`/
`data` only when truthy, `timeout` only when not `None`). -/
structure EffectiveRequest where
  verb : String
  endpoint : String
  json : Option PyValue
  url_params : Option PyValue
  headers : Option (List (String × String))
  data : Option String
  timeout : Option ℚ

/-- Assembly of the effective HTTP request by `_simple_request`:
`headers = headers or self._prepare_headers()`, then the `kwargs` dictionary
gets `json` always and `params` / `headers` / `data` only when truthy and
`timeout` only when not `None`. -/
def buildEffectiveRequest (verb endpoint : String) (params : Option PyValue)
    (rp : RequestParams) (auth : AuthState) : EffectiveRequest :=
  let headers := orHeaders rp.headers (prepare_headers auth)
  ⟨verb, endpoint, params,
   (if truthyOptVal rp.url_params then rp.url_params else none),
   (if truthyHeaders headers then headers else none),
   (if truthyData rp.data then rp.data else none),
   rp.timeout⟩

/-- The behaviour of the HTTP server/network for one transport invocation:
an HTTP response (status, detail text, decoded body), a timeout, or a
connection-layer failure with no HTTP response. -/
inductive TransportOutcome where
  | response (status : Nat) (detail : String) (body : PyValue) : TransportOutcome
  | timeout (detail : String) : TransportOutcome
  | connectError (detail : String) : TransportOutcome

/-- A transport oracle: what `self._client.request` does for an assembled
request. -/
abbrev Transport := EffectiveRequest → TransportOutcome

/-- Modelled from the spec: `_process_response` of `ReManagerAPI_HTTP_Base`
(`comm_base.py`, not among the provided sources): a received 2xx response is
decoded to its payload; a received non-2xx response raises `HTTPClientError`
with message `"<status>: <server detail>"`. -/
def process_response (status : Nat) (detail : String) (body : PyValue) :
    Except PyError PyValue :=
  if 200 ≤ status ∧ status < 300 then .ok body
  else .error (.httpClientError (toString status ++ ": " ++ detail))

/-- A failure caught by the `except` clause of `_simple_request`: an
already-typed comm-layer error propagating, or a low-level transport
failure. -/
inductive CommFailure where
  | typed (e : PyError) : CommFailure
  | timeout (detail : String) : CommFailure
  | connect (detail : String) : CommFailure

/-- Modelled from the spec: `_process_comm_exception` of
`ReManagerAPI_HTTP_Base` (`comm_base.py`, not among the provided sources):
the single comm-exception translator maps each caught failure
deterministically to exactly one taxonomy error — typed comm errors re-raise
unchanged, a transport timeout raises `RequestTimeoutError`, and a
connection-layer failure raises `HTTPRequestError` with message
`"HTTP request error: <underlying cause>"`. -/
def process_comm_exception : CommFailure → PyError
  | .typed e => e
  | .timeout d => .requestTimeoutError ("Request timeout: " ++ d)
  | .connect d => .httpRequestError ("HTTP request error: " ++ d)

/-- The observable outcome of one `_simple_request` invocation: the value
returned or error raised, and the list of invocations of the underlying HTTP
client's `request` that were made. -/
structure SimpleOutcome where
  result : Except PyError PyValue
  transportCalls : List EffectiveRequest

/-- `ReManagerComm_HTTP_Threads._simple_request`: prepare the request (an
unknown method name fails here, before any network I/O), assemble the
`kwargs`, invoke the HTTP client once, translate any caught failure through
`_process_comm_exception` (which always raises), and run a received payload
through `_check_response`. -/
def simple_request_http (transport : Transport) (auth : AuthState) (rfe : Bool)
    (rp : RequestParams) : SimpleOutcome :=
  match prepare_request rp.method rp.params with
  | .error e => ⟨.error (process_comm_exception (.typed e)), []⟩
  | .ok (verb, endpoint, params2) =>
    let er := buildEffectiveRequest verb endpoint params2 rp auth
    match transport er with
    | .timeout d => ⟨.error (process_comm_exception (.timeout d)), [er]⟩
    | .connectError d => ⟨.error (process_comm_exception (.connect d)), [er]⟩
    | .response status detail body =>
      match process_response status detail body with
      | .error e => ⟨.error (process_comm_exception (.typed e)), [er]⟩
      | .ok resp =>
        match check_response rfe ⟨rp.method, params2⟩ resp with
        | .error e => ⟨.error e, [er]⟩
        | .ok r => ⟨.ok r, [er]⟩

/-- The expired-access-token indication tested by `send_request`:
`"401: Access token has expired" in str(ex)`. -/
def expiredTokenMsg : String := "401: Access token has expired"

/-- Whether the first character list starts the second one. -/
def charsStartWith : List Char → List Char → Bool
  | [], _ => true
  | _ :: _, [] => false
  | a :: as, b :: bs => a == b && charsStartWith as bs

/-- Whether the pattern occurs somewhere in the character list. -/
def charsContain (pat : List Char) : List Char → Bool
  | [] => charsStartWith pat []
  | c :: rest => charsStartWith pat (c :: rest) || charsContain pat rest

/-- Python `pat in s` substring test. -/
def strContains (s pat : String) : Bool :=
  charsContain pat.data s.data

/-- The authorization state after the `session_refresh()` attempt of the
retry path: the refreshed state on success; on any exception the failure is
swallowed (`except Exception as ex: print(...)`) and the previous state stays
active. -/
def authAfterRefresh (auth : AuthState) (refreshOutcome : Except PyError AuthState) :
    AuthState :=
  match refreshOutcome with
  | .ok a2 => a2
  | .error _ => auth

/-- The observable outcome of one `send_request` call on the HTTP client:
the value returned or error raised, the parameter records of the
`_simple_request` invocations made (in order), the underlying HTTP client
invocations made (in order), the number of `session_refresh` attempts, and
the authorization state after the call. -/
structure SendOutcome where
  result : Except PyError PyValue
  attempts : List RequestParams
  transportCalls : List EffectiveRequest
  refreshAttempts : Nat
  finalAuth : AuthState

/-- `ReManagerComm_HTTP_Threads.send_request`: build `request_params` once,
attempt `_simple_request`; on `HTTPClientError` whose message contains the
expired-token indication, with the `TOKEN` authorization method active, a
refresh token present and `auto_refresh_session` enabled, attempt
`session_refresh()` (outcome given by the oracle `refreshOutcome`; a refresh
failure is swallowed) and call `_simple_request` once more with the same
`request_params`; any other first-attempt error re-raises unchanged.
`transport n` is the HTTP-client behaviour during attempt `n`. -/
def send_request_http (transport : Nat → Transport)
    (refreshOutcome : Except PyError AuthState) (auth : AuthState) (rfe : Bool)
    (rp : RequestParams) (auto_refresh_session : Bool) : SendOutcome :=
  let a1 := simple_request_http (transport 0) auth rfe rp
  match a1.result with
  | .error (.httpClientError m) =>
    if auto_refresh_session && strContains m expiredTokenMsg
        && decide (auth.method = AuthorizationMethods.TOKEN)
        && (authRefreshToken auth).isSome then
      let auth2 := authAfterRefresh auth refreshOutcome
      let a2 := simple_request_http (transport 1) auth2 rfe rp
      ⟨a2.result, [rp, rp], a1.transportCalls ++ a2.transportCalls, 1, auth2⟩
    else
      ⟨a1.result, [rp], a1.transportCalls, 0, auth⟩
  | _ => ⟨a1.result, [rp], a1.transportCalls, 0, auth⟩

/-- Reduction of `send_request` when the first `_simple_request` attempt
returns a value: it is returned as is, with one attempt and no refresh. -/
theorem send_request_http_first_ok (T : Nat → Transport)
    (R : Except PyError AuthState) (auth : AuthState) (rfe : Bool)
    (rp : RequestParams) (ars : Bool) (v : PyValue)
    (h : (simple_request_http (T 0) auth rfe rp).result = .ok v) :
    send_request_http T R auth rfe rp ars
      = ⟨.ok v, [rp], (simple_request_http (T 0) auth rfe rp).transportCalls, 0, auth⟩ := by
  simp only [send_request_http, h]

/-- Reduction of `send_request` when the first attempt raises an error other
than `HTTPClientError`: the error re-raises unchanged, with one attempt and
no refresh. -/
theorem send_request_http_first_error_other (T : Nat → Transport)
    (R : Except PyError AuthState) (auth : AuthState) (rfe : Bool)
    (rp : RequestParams) (ars : Bool) (e : PyError)
    (h : (simple_request_http (T 0) auth rfe rp).result = .error e)
    (hne : ∀ m, e ≠ PyError.httpClientError m) :
    send_request_http T R auth rfe rp ars
      = ⟨.error e, [rp], (simple_request_http (T 0) auth rfe rp).transportCalls, 0, auth⟩ := by
  cases e with
  | httpClientError m => exact absurd rfl (hne m)
  | requestFailedError msg req resp => simp only [send_request_http, h]
  | requestTimeoutError msg => simp only [send_request_http, h]
  | requestParameterError msg => simp only [send_request_http, h]
  | httpRequestError msg => simp only [send_request_http, h]
  | otherError msg => simp only [send_request_http, h]

/-- Reduction of `send_request` when the first attempt raises
`HTTPClientError` and the refresh condition holds: one `session_refresh`
attempt and one retried `_simple_request` with the same parameters, whose
result is final. -/
theorem send_request_http_client_retry (T : Nat → Transport)
    (R : Except PyError AuthState) (auth : AuthState) (rfe : Bool)
    (rp : RequestParams) (ars : Bool) (m : String)
    (h : (simple_request_http (T 0) auth rfe rp).result = .error (.httpClientError m))
    (hc : (ars && strContains m expiredTokenMsg
        && decide (auth.method = AuthorizationMethods.TOKEN)
        && (authRefreshToken auth).isSome) = true) :
    send_request_http T R auth rfe rp ars
      = ⟨(simple_request_http (T 1) (authAfterRefresh auth R) rfe rp).result, [rp, rp],
         (simple_request_http (T 0) auth rfe rp).transportCalls
           ++ (simple_request_http (T 1) (authAfterRefresh auth R) rfe rp).transportCalls,
         1, authAfterRefresh auth R⟩ := by
  simp only [send_request_http, h, hc, if_true]

/-- Reduction of `send_request` when the first attempt raises
`HTTPClientError` but the refresh condition fails: the error re-raises
unchanged, with one attempt and no refresh. -/
theorem send_request_http_client_no_retry (T : Nat → Transport)
    (R : Except PyError AuthState) (auth : AuthState) (rfe : Bool)
    (rp : RequestParams) (ars : Bool) (m : String)
    (h : (simple_request_http (T 0) auth rfe rp).result = .error (.httpClientError m))
    (hc : (ars && strContains m expiredTokenMsg
        && decide (auth.method = AuthorizationMethods.TOKEN)
        && (authRefreshToken auth).isSome) = false) :
    send_request_http T R auth rfe rp ars
      = ⟨.error (.httpClientError m), [rp],
         (simple_request_http (T 0) auth rfe rp).transportCalls, 0, auth⟩ := by
  simp only [send_request_http, h, hc, if_false, Bool.false_eq_true]

/-- C1: with `auto_refresh_session` enabled, `send_request` takes the
refresh-and-retry transition if and only if the first `_simple_request`
attempt raised `HTTPClientError` whose message contains
`"401: Access token has expired"`, the active authorization method is
`TOKEN`, and a refresh token is present; whenever the transition is not
taken, the first attempt's outcome (value or error) is final, with exactly
one `_simple_request` invocation and no extra transport calls. -/
theorem C1_refresh_transition_iff (T : Nat → Transport)
    (R : Except PyError AuthState) (auth : AuthState) (rfe : Bool)
    (rp : RequestParams) :
    ((send_request_http T R auth rfe rp true).refreshAttempts = 1
      ↔ ∃ m, (simple_request_http (T 0) auth rfe rp).result = .error (.httpClientError m)
          ∧ strContains m expiredTokenMsg = true
          ∧ auth.method = AuthorizationMethods.TOKEN
          ∧ (authRefreshToken auth).isSome = true)
    ∧ ((send_request_http T R auth rfe rp true).refreshAttempts = 0 →
        (send_request_http T R auth rfe rp true).result
            = (simple_request_http (T 0) auth rfe rp).result
        ∧ (send_request_http T R auth rfe rp true).attempts = [rp]
        ∧ (send_request_http T R auth rfe rp true).transportCalls
            = (simple_request_http (T 0) auth rfe rp).transportCalls) := by
  rcases hres : (simple_request_http (T 0) auth rfe rp).result with e | v
  case ok =>
    rw [send_request_http_first_ok T R auth rfe rp true v hres]
    constructor
    · constructor
      · intro h0; simp at h0
      · rintro ⟨m, hm, -, -, -⟩
        exact Except.noConfusion hm
    · intro _; exact ⟨rfl, rfl, rfl⟩
  case error =>
    by_cases hcl : ∃ m, e = PyError.httpClientError m
    · obtain ⟨m, rfl⟩ := hcl
      cases hco : (true && strContains m expiredTokenMsg
          && decide (auth.method = AuthorizationMethods.TOKEN)
          && (authRefreshToken auth).isSome) with
      | true =>
        rw [send_request_http_client_retry T R auth rfe rp true m hres hco]
        simp only [Bool.true_and, Bool.and_eq_true, decide_eq_true_eq] at hco
        constructor
        · constructor
          · intro _; exact ⟨m, rfl, hco.1.1, hco.1.2, hco.2⟩
          · intro _; rfl
        · intro h0; simp at h0
      | false =>
        rw [send_request_http_client_no_retry T R auth rfe rp true m hres hco]
        constructor
        · constructor
          · intro h0; simp at h0
          · rintro ⟨m', hm', hmsg, hmeth, hrt⟩
            have hmm : m = m' := by
              injection hm' with hx
              injection hx
            subst hmm
            have hd : decide (auth.method = AuthorizationMethods.TOKEN) = true :=
              decide_eq_true hmeth
            rw [hmsg, hd, hrt] at hco
            simp at hco
        · intro _; exact ⟨rfl, rfl, rfl⟩
    · have hne : ∀ m, e ≠ PyError.httpClientError m := fun m hm => hcl ⟨m, hm⟩
      rw [send_request_http_first_error_other T R auth rfe rp true e hres hne]
      constructor
      · constructor
        · intro h0; simp at h0
        · rintro ⟨m, hm, -, -, -⟩
          injection hm with hx
          exact absurd hx (hne m)
      · intro _; exact ⟨rfl, rfl, rfl⟩

/-- The authorization state used in the retry examples: `TOKEN` method with
an access/refresh token pair. -/
def exampleAuth : AuthState := ⟨.TOKEN, .tokenPair "old-access-token" (some "valid-refresh-token")⟩

/-- Example request parameters for `send_request`. -/
def exampleRP : RequestParams :=
  ⟨.bare "queue_item_add", some (.map [("item", .map [("name", .str "count")])]),
   none, none, none, none⟩

/-- Example transport behaviour: the server always answers
`401 Access token has expired`. -/
def exampleTransport401 : Nat → Transport :=
  fun _ _ => .response 401 "Access token has expired" .noneV

/-- Example transport behaviour: the server always accepts the request. -/
def exampleTransportOk : Nat → Transport :=
  fun _ _ => .response 200 "OK" (.map [("success", .bool true)])

/-- Example refresh outcome: a new token pair is stored. -/
def exampleRefreshOk : Except PyError AuthState :=
  .ok ⟨.TOKEN, .tokenPair "new-access-token" (some "new-refresh-token")⟩

/-- Witness for C1: on a successful first attempt no refresh happens and the
response is final. -/
theorem C1_refresh_transition_iff_witness :
    (send_request_http exampleTransportOk exampleRefreshOk exampleAuth true exampleRP true).result
        = (simple_request_http (exampleTransportOk 0) exampleAuth true exampleRP).result
    ∧ (send_request_http exampleTransportOk exampleRefreshOk exampleAuth true exampleRP true).attempts
        = [exampleRP]
    ∧ (send_request_http exampleTransportOk exampleRefreshOk exampleAuth true exampleRP true).transportCalls
        = (simple_request_http (exampleTransportOk 0) exampleAuth true exampleRP).transportCalls :=
  (C1_refresh_transition_iff exampleTransportOk exampleRefreshOk exampleAuth true exampleRP).2 (by rfl)

/-- C2: when the refresh-and-retry transition is taken, exactly one
`session_refresh` is attempted and exactly one retried `_simple_request` is
made, the retried invocation receives the parameter record built for the
first attempt (same method, params, url_params, headers, data, timeout), and
its outcome — value or error, including a second expired-token
`HTTPClientError` — is final, with no further retries. -/
theorem C2_single_refresh_retry (T : Nat → Transport)
    (R : Except PyError AuthState) (auth : AuthState) (rfe : Bool)
    (rp : RequestParams) (m : String)
    (h1 : (simple_request_http (T 0) auth rfe rp).result = .error (.httpClientError m))
    (h2 : strContains m expiredTokenMsg = true)
    (h3 : auth.method = AuthorizationMethods.TOKEN)
    (h4 : (authRefreshToken auth).isSome = true) :
    (send_request_http T R auth rfe rp true).refreshAttempts = 1
    ∧ (send_request_http T R auth rfe rp true).attempts = [rp, rp]
    ∧ (send_request_http T R auth rfe rp true).result
        = (simple_request_http (T 1) (authAfterRefresh auth R) rfe rp).result
    ∧ (send_request_http T R auth rfe rp true).transportCalls
        = (simple_request_http (T 0) auth rfe rp).transportCalls
          ++ (simple_request_http (T 1) (authAfterRefresh auth R) rfe rp).transportCalls := by
  have hc : (true && strContains m expiredTokenMsg
      && decide (auth.method = AuthorizationMethods.TOKEN)
      && (authRefreshToken auth).isSome) = true := by
    simp [h2, h3, h4]
  rw [send_request_http_client_retry T R auth rfe rp true m h1 hc]
  exact ⟨rfl, rfl, rfl, rfl⟩

/-- Witness for C2: an expired-token response triggers exactly one refresh
and one retry. -/
theorem C2_single_refresh_retry_witness :
    (send_request_http exampleTransport401 exampleRefreshOk exampleAuth true exampleRP true).refreshAttempts = 1
    ∧ (send_request_http exampleTransport401 exampleRefreshOk exampleAuth true exampleRP true).attempts
        = [exampleRP, exampleRP]
    ∧ (send_request_http exampleTransport401 exampleRefreshOk exampleAuth true exampleRP true).result
        = (simple_request_http (exampleTransport401 1) (authAfterRefresh exampleAuth exampleRefreshOk) true exampleRP).result
    ∧ (send_request_http exampleTransport401 exampleRefreshOk exampleAuth true exampleRP true).transportCalls
        = (simple_request_http (exampleTransport401 0) exampleAuth true exampleRP).transportCalls
          ++ (simple_request_http (exampleTransport401 1) (authAfterRefresh exampleAuth exampleRefreshOk) true exampleRP).transportCalls :=
  C2_single_refresh_retry exampleTransport401 exampleRefreshOk exampleAuth true exampleRP
    "401: Access token has expired" (by rfl) (by rfl) rfl rfl

/-- C5: if `session_refresh()` raises during the retry path, the exception is
swallowed — for every raised error the call still makes the retried
`_simple_request` with the credentials still active (the unchanged
authorization state), and the caller observes exactly the retried attempt's
outcome, never a refresh error. -/
theorem C5_refresh_failure_swallowed (T : Nat → Transport) (auth : AuthState)
    (rfe : Bool) (rp : RequestParams) (m : String) (e : PyError)
    (h1 : (simple_request_http (T 0) auth rfe rp).result = .error (.httpClientError m))
    (h2 : strContains m expiredTokenMsg = true)
    (h3 : auth.method = AuthorizationMethods.TOKEN)
    (h4 : (authRefreshToken auth).isSome = true) :
    (send_request_http T (.error e) auth rfe rp true).result
        = (simple_request_http (T 1) auth rfe rp).result
    ∧ (send_request_http T (.error e) auth rfe rp true).finalAuth = auth
    ∧ (send_request_http T (.error e) auth rfe rp true).attempts = [rp, rp]
    ∧ (send_request_http T (.error e) auth rfe rp true).refreshAttempts = 1 := by
  have hc : (true && strContains m expiredTokenMsg
      && decide (auth.method = AuthorizationMethods.TOKEN)
      && (authRefreshToken auth).isSome) = true := by
    simp [h2, h3, h4]
  rw [send_request_http_client_retry T (.error e) auth rfe rp true m h1 hc]
  exact ⟨rfl, rfl, rfl, rfl⟩

/-- Witness for C5: a failing refresh is swallowed and the retry outcome is
delivered. -/
theorem C5_refresh_failure_swallowed_witness :
    (send_request_http exampleTransport401
        (.error (.httpRequestError "HTTP request error: connection refused"))
        exampleAuth true exampleRP true).result
      = (simple_request_http (exampleTransport401 1) exampleAuth true exampleRP).result
    ∧ (send_request_http exampleTransport401
        (.error (.httpRequestError "HTTP request error: connection refused"))
        exampleAuth true exampleRP true).finalAuth = exampleAuth
    ∧ (send_request_http exampleTransport401
        (.error (.httpRequestError "HTTP request error: connection refused"))
        exampleAuth true exampleRP true).attempts = [exampleRP, exampleRP]
    ∧ (send_request_http exampleTransport401
        (.error (.httpRequestError "HTTP request error: connection refused"))
        exampleAuth true exampleRP true).refreshAttempts = 1 :=
  C5_refresh_failure_swallowed exampleTransport401 exampleAuth true exampleRP
    "401: Access token has expired" (.httpRequestError "HTTP request error: connection refused")
    (by rfl) (by rfl) rfl rfl

/-- C8: for every bare method name missing from the REST method-name table,
`send_request` raises `RequestParameterError` with message
`"Unknown method '<name>'"`, and the underlying HTTP client's `request` is
never invoked (no transport call is made). -/
theorem C8_unknown_method_no_transport (T : Nat → Transport)
    (R : Except PyError AuthState) (auth : AuthState) (rfe : Bool)
    (rp : RequestParams) (name : String) (ars : Bool)
    (h1 : rp.method = .bare name)
    (h2 : tableLookup rest_api_method_map name = none) :
    (send_request_http T R auth rfe rp ars).result
        = .error (.requestParameterError ("Unknown method '" ++ name ++ "'"))
    ∧ (send_request_http T R auth rfe rp ars).transportCalls = [] := by
  have hs : simple_request_http (T 0) auth rfe rp
      = ⟨.error (.requestParameterError ("Unknown method '" ++ name ++ "'")), []⟩ := by
    simp only [simple_request_http, prepare_request, h1, h2, process_comm_exception]
  have hr := send_request_http_first_error_other T R auth rfe rp ars
    (.requestParameterError ("Unknown method '" ++ name ++ "'"))
    (by rw [hs]) (fun m hm => PyError.noConfusion hm)
  rw [hr, hs]
  exact ⟨rfl, rfl⟩

/-- Witness for C8 at the method name used by `test_ReManagerComm_HTTP_03`. -/
theorem C8_unknown_method_no_transport_witness :
    (send_request_http exampleTransportOk exampleRefreshOk exampleAuth true
        ⟨.bare "unknown_method", none, none, none, none, none⟩ true).result
      = .error (.requestParameterError "Unknown method 'unknown_method'")
    ∧ (send_request_http exampleTransportOk exampleRefreshOk exampleAuth true
        ⟨.bare "unknown_method", none, none, none, none, none⟩ true).transportCalls = [] :=
  C8_unknown_method_no_transport exampleTransportOk exampleRefreshOk exampleAuth true
    ⟨.bare "unknown_method", none, none, none, none, none⟩ "unknown_method" true rfl (by decide)

/-- Modelled from the spec: `set_authorization_key(api_key=None, token=None)`
of `ReManagerAPI_HTTP_Base` (`comm_base.py`, not among the provided sources):
a direct, local-only replacement of the authorization state, no network call;
at most one authentication method is active at a time, and calling it with no
arguments clears the state to `NONE`. -/
def set_authorization_key (api_key : Option String)
    (token : Option (String × Option String)) : AuthState :=
  match api_key, token with
  | some k, _ => ⟨.API_KEY, .apiKey k⟩
  | none, some (t, r) => ⟨.TOKEN, .tokenPair t r⟩
  | none, none => ⟨.NONE, .noKey⟩

/-- The `request_params` record of the `send_request` call made by
`logout()`: `method="logout"`, every other keyword argument at its
default. -/
def logoutRP : RequestParams := ⟨.bare "logout", none, none, none, none, none⟩

/-- `ReManagerComm_HTTP_Threads.logout`:
`response = self.send_request(method="logout")` — with
`auto_refresh_session` left at the `True` default, so the call may enter the
automatic refresh-and-retry path and `send_request` may store a new token
pair — followed by `self.set_authorization_key()`.  When `send_request`
raises, the error propagates before the clearing line runs and the
authorization state is whatever `send_request` left active
(`finalAuth`). -/
def logout_http (T : Nat → Transport) (R : Except PyError AuthState)
    (auth : AuthState) (rfe : Bool) : Except PyError PyValue × AuthState :=
  let out := send_request_http T R auth rfe logoutRP true
  match out.result with
  | .ok resp => (.ok resp, set_authorization_key none none)
  | .error e => (.error e, out.finalAuth)

/-- Example transport behaviour: every connection attempt is refused and no
HTTP response is ever received. -/
def exampleTransportConnRefused : Nat → Transport :=
  fun _ _ => .connectError "[Errno 111] Connection refused"

/-- C6 counterexample: when the logout request raises (here a connection
failure on a client holding a token pair), `logout()` propagates the error
before reaching `set_authorization_key()`, so the authorization state is NOT
cleared to `NONE` — refuting the claim that the state is cleared
unconditionally regardless of the request's outcome. -/
theorem C6_logout_counterexample :
    (logout_http exampleTransportConnRefused exampleRefreshOk exampleAuth true).2
      ≠ ⟨AuthorizationMethods.NONE, .noKey⟩ := by
  decide

/-- C6 (amended): `logout()` issues the logout request (with
`auto_refresh_session` left at the `True` default); whenever the request
returns a value — including a structured-failure mapping returned when
`request_fail_exceptions` is disabled — the authorization state is cleared to
`NONE`; when the request raises, the error propagates and the authorization
state is NOT cleared: it stays as `send_request` left it — the prior state
when no automatic refresh ran, or the newly stored token pair when a
successful refresh preceded a failing retry. -/
theorem C6_logout_clears_on_return (T : Nat → Transport)
    (R : Except PyError AuthState) (auth : AuthState) (rfe : Bool) :
    (∀ resp : PyValue,
        (send_request_http T R auth rfe logoutRP true).result = .ok resp →
        logout_http T R auth rfe = (.ok resp, ⟨AuthorizationMethods.NONE, .noKey⟩))
    ∧ (∀ e : PyError,
        (send_request_http T R auth rfe logoutRP true).result = .error e →
        logout_http T R auth rfe
          = (.error e, (send_request_http T R auth rfe logoutRP true).finalAuth)) := by
  constructor
  · intro resp h
    simp only [logout_http, h]
    rfl
  · intro e h
    simp only [logout_http, h]

/-- Witness for C6 (amended): a returned response clears the state to `NONE`;
a raising request propagates with the state `send_request` left active. -/
theorem C6_logout_clears_on_return_witness :
    logout_http exampleTransportOk exampleRefreshOk exampleAuth true
      = (.ok (.map [("success", PyValue.bool true)]),
         ⟨AuthorizationMethods.NONE, .noKey⟩)
    ∧ logout_http exampleTransportConnRefused exampleRefreshOk exampleAuth true
      = (.error (.httpRequestError "HTTP request error: [Errno 111] Connection refused"),
         (send_request_http exampleTransportConnRefused exampleRefreshOk exampleAuth true
            logoutRP true).finalAuth) :=
  ⟨(C6_logout_clears_on_return exampleTransportOk exampleRefreshOk exampleAuth true).1
      (.map [("success", PyValue.bool true)]) (by rfl),
   (C6_logout_clears_on_return exampleTransportConnRefused exampleRefreshOk exampleAuth true).2
      (.httpRequestError "HTTP request error: [Errno 111] Connection refused") (by rfl)⟩

/-- A request issued to `send_request`: the keyword arguments together with
the `auto_refresh_session` flag that the calling method passes (`true` is the
`send_request` default, used when the caller omits the argument). -/
structure IssuedRequest where
  rp : RequestParams
  auto_refresh_session : Bool

/-- `ReManagerComm_HTTP_Threads.login`: request issued with
`method=("POST", endpoint)`, `data=data`, `timeout=self._timeout_login`,
`auto_refresh_session=False`.  Endpoint and encoded form data come from
`_prepare_login`. -/
def login_call (endpoint : String) (data : String) (timeout_login : ℚ) :
    IssuedRequest :=
  ⟨⟨.pair "POST" endpoint, none, none, none, some data, some timeout_login⟩, false⟩

/-- `ReManagerComm_HTTP_Threads.session_refresh`: request issued with
`method="session_refresh"`, `params=\x7b"refresh_token": refresh_token\x7d`,
`auto_refresh_session=False`. -/
def session_refresh_call (refresh_token : String) : IssuedRequest :=
  ⟨⟨.bare "session_refresh", some (.map [("refresh_token", .str refresh_token)]),
    none, none, none, none⟩, false⟩

/-- `ReManagerComm_HTTP_Threads.session_revoke`:
`kwargs = \x7b"headers": headers, "auto_refresh_session": False\x7d if headers
else \x7b\x7d` — auto-refresh is disabled only when `_prepare_session_revoke`
produced truthy override headers. -/
def session_revoke_call (method : MethodSpec)
    (headers : Option (List (String × String))) : IssuedRequest :=
  if truthyHeaders headers then ⟨⟨method, none, none, headers, none, none⟩, false⟩
  else ⟨⟨method, none, none, none, none, none⟩, true⟩

/-- `ReManagerComm_HTTP_Threads.apikey_new`: request issued with
`method=method`, `params=request_params` and no `auto_refresh_session`
argument (so the `True` default applies). -/
def apikey_new_call (method : MethodSpec) (request_params : Option PyValue) :
    IssuedRequest :=
  ⟨⟨method, request_params, none, none, none, none⟩, true⟩

/-- `ReManagerComm_HTTP_Threads.apikey_info`: conditional `kwargs` as in
`session_revoke`, with `method="apikey_info"`. -/
def apikey_info_call (headers : Option (List (String × String))) : IssuedRequest :=
  if truthyHeaders headers then ⟨⟨.bare "apikey_info", none, none, headers, none, none⟩, false⟩
  else ⟨⟨.bare "apikey_info", none, none, none, none, none⟩, true⟩

/-- `ReManagerComm_HTTP_Threads.apikey_delete`: conditional `kwargs` as in
`session_revoke`, with `method="apikey_delete"` and `url_params` always
passed. -/
def apikey_delete_call (url_params : Option PyValue)
    (headers : Option (List (String × String))) : IssuedRequest :=
  if truthyHeaders headers then
    ⟨⟨.bare "apikey_delete", none, url_params, headers, none, none⟩, false⟩
  else ⟨⟨.bare "apikey_delete", none, url_params, none, none, none⟩, true⟩

/-- `ReManagerComm_HTTP_Threads.whoami`: conditional `kwargs` as in
`session_revoke`, with `method="whoami"`. -/
def whoami_call (headers : Option (List (String × String))) : IssuedRequest :=
  if truthyHeaders headers then ⟨⟨.bare "whoami", none, none, headers, none, none⟩, false⟩
  else ⟨⟨.bare "whoami", none, none, none, none, none⟩, true⟩

/-- `ReManagerComm_HTTP_Threads.principal_info`: request issued with
`method=method` only (the `auto_refresh_session=True` default applies). -/
def principal_info_call (method : MethodSpec) : IssuedRequest :=
  ⟨⟨method, none, none, none, none, none⟩, true⟩

/-- `ReManagerComm_HTTP_Threads.api_scopes`: conditional `kwargs` as in
`session_revoke`, with `method="api_scopes"` (headers from
`_prepare_whoami`). -/
def api_scopes_call (headers : Option (List (String × String))) : IssuedRequest :=
  if truthyHeaders headers then ⟨⟨.bare "api_scopes", none, none, headers, none, none⟩, false⟩
  else ⟨⟨.bare "api_scopes", none, none, none, none, none⟩, true⟩

/-- `ReManagerComm_HTTP_Threads.logout`: request issued with
`method="logout"` only (the `auto_refresh_session=True` default applies). -/
def logout_call : IssuedRequest :=
  ⟨⟨.bare "logout", none, none, none, none, none⟩, true⟩

/-- C7 counterexample: `apikey_new` issues its request with
`auto_refresh_session` left at the `True` default — refuting the claim that
every Authentication/Session Manager operation issues its own request with
`auto_refresh_session` disabled. -/
theorem C7_apikey_new_counterexample :
    ¬ ((apikey_new_call (.bare "apikey_new")
        (some (.map [("expires_in", .int 900)]))).auto_refresh_session = false) := by
  decide

/-- C7 (amended): `login` and `session_refresh` always issue their requests
with `auto_refresh_session` disabled; `session_revoke`, `apikey_info`,
`apikey_delete`, `whoami` and `api_scopes` disable it exactly when an
explicit credential override produced truthy headers (otherwise the `True`
default applies); `apikey_new`, `principal_info` and `logout` always issue
their requests with the `True` default, so those calls can still enter the
automatic refresh-and-retry path. -/
theorem C7_auto_refresh_session_flags :
    (∀ (ep d : String) (t : ℚ), (login_call ep d t).auto_refresh_session = false)
    ∧ (∀ rt : String, (session_refresh_call rt).auto_refresh_session = false)
    ∧ (∀ (m : MethodSpec) (h : Option (List (String × String))),
        (session_revoke_call m h).auto_refresh_session = !truthyHeaders h)
    ∧ (∀ (m : MethodSpec) (p : Option PyValue),
        (apikey_new_call m p).auto_refresh_session = true)
    ∧ (∀ h : Option (List (String × String)),
        (apikey_info_call h).auto_refresh_session = !truthyHeaders h)
    ∧ (∀ (u : Option PyValue) (h : Option (List (String × String))),
        (apikey_delete_call u h).auto_refresh_session = !truthyHeaders h)
    ∧ (∀ h : Option (List (String × String)),
        (whoami_call h).auto_refresh_session = !truthyHeaders h)
    ∧ (∀ m : MethodSpec, (principal_info_call m).auto_refresh_session = true)
    ∧ (∀ h : Option (List (String × String)),
        (api_scopes_call h).auto_refresh_session = !truthyHeaders h)
    ∧ logout_call.auto_refresh_session = true := by
  refine ⟨fun _ _ _ => rfl, fun _ => rfl, ?_, fun _ _ => rfl, ?_, ?_, ?_, fun _ => rfl, ?_, rfl⟩
  · intro m h
    cases hh : truthyHeaders h <;> simp [session_revoke_call, hh]
  · intro h
    cases hh : truthyHeaders h <;> simp [apikey_info_call, hh]
  · intro u h
    cases hh : truthyHeaders h <;> simp [apikey_delete_call, hh]
  · intro h
    cases hh : truthyHeaders h <;> simp [whoami_call, hh]
  · intro h
    cases hh : truthyHeaders h <;> simp [api_scopes_call, hh]

/-- The mutable state of a thread-based HTTP client relevant to lifecycle
operations: the closing flag, whether the console monitor is running, whether
the transport handle is open, and the authorization state. -/
structure HttpCommState where
  is_closing : Bool
  monitor_enabled : Bool
  client_open : Bool
  auth : AuthState
deriving DecidableEq

/-- The mutable state of a thread-based ZMQ client relevant to lifecycle
operations. -/
structure ZmqCommState where
  is_closing : Bool
  monitor_enabled : Bool
  client_open : Bool
deriving DecidableEq

/-- An external lifecycle call made by `close()` / `__del__`; the console
monitor's `disable_wait` and the transport handle's `close` are contracted by
their interfaces to return (with `disable_wait` bounded by its timeout), so
the embedding is total — `close()` raises nothing. -/
inductive LifecycleAction where
  | setClosingFlag : LifecycleAction
  | monitorDisableWait (timeout : ℚ) : LifecycleAction
  | clientClose : LifecycleAction
deriving DecidableEq

/-- `ReManagerComm_HTTP_Threads.close`: set `_is_closing`, stop the console
monitor with `disable_wait(timeout=self._console_monitor_poll_period * 10)`,
then close the HTTP client — returning the new state and the ordered list of
actions performed. -/
def close_http (poll_period : ℚ) (s : HttpCommState) :
    HttpCommState × List LifecycleAction :=
  (⟨true, false, false, s.auth⟩,
   [.setClosingFlag, .monitorDisableWait (poll_period * 10), .clientClose])

/-- `ReManagerComm_ZMQ_Threads.close`: set `_is_closing`, stop the console
monitor with `disable_wait(timeout=self._console_monitor_poll_timeout * 10)`,
then close the ZMQ client. -/
def close_zmq (poll_timeout : ℚ) (s : ZmqCommState) :
    ZmqCommState × List LifecycleAction :=
  (⟨true, false, false⟩,
   [.setClosingFlag, .monitorDisableWait (poll_timeout * 10), .clientClose])

/-- `ReManagerComm_HTTP_Threads.__del__`: sets `_is_closing = True` and makes
no external call. -/
def del_http (s : HttpCommState) : HttpCommState × List LifecycleAction :=
  (⟨true, s.monitor_enabled, s.client_open, s.auth⟩, [])

/-- `ReManagerComm_ZMQ_Threads.__del__`: sets `_is_closing = True` and makes
no external call. -/
def del_zmq (s : ZmqCommState) : ZmqCommState × List LifecycleAction :=
  (⟨true, s.monitor_enabled, s.client_open⟩, [])

/-- C9: `close()` on both thread-based clients never raises (the embedding is
a total function whose codomain carries no error) and performs, on every
call, exactly the ordered action sequence: set the closing flag, stop the
console monitor with a bounded wait of 10 times its poll interval, release
the transport handle; calling `close()` again on the resulting state repeats
the same bounded sequence and is a no-op on the state, so repeated calls are
safe. -/
theorem C9_close_order_safe :
    (∀ (p : ℚ) (s : HttpCommState),
        (close_http p s).2
          = [LifecycleAction.setClosingFlag, .monitorDisableWait (p * 10), .clientClose]
        ∧ (close_http p s).1.is_closing = true
        ∧ close_http p (close_http p s).1 = close_http p s)
    ∧ (∀ (p : ℚ) (s : ZmqCommState),
        (close_zmq p s).2
          = [LifecycleAction.setClosingFlag, .monitorDisableWait (p * 10), .clientClose]
        ∧ (close_zmq p s).1.is_closing = true
        ∧ close_zmq p (close_zmq p s).1 = close_zmq p s) :=
  ⟨fun _ _ => ⟨rfl, rfl, rfl⟩, fun _ _ => ⟨rfl, rfl, rfl⟩⟩

/-- C10: `__del__` on both thread-based clients sets only the closing flag:
it makes no external call (no monitor stop, no transport close) and leaves
the monitor state, the transport handle and the authorization state
unchanged. -/
theorem C10_del_only_sets_closing_flag :
    (∀ s : HttpCommState,
        (del_http s).1.is_closing = true
        ∧ (del_http s).1.monitor_enabled = s.monitor_enabled
        ∧ (del_http s).1.client_open = s.client_open
        ∧ (del_http s).1.auth = s.auth
        ∧ (del_http s).2 = [])
    ∧ (∀ s : ZmqCommState,
        (del_zmq s).1.is_closing = true
        ∧ (del_zmq s).1.monitor_enabled = s.monitor_enabled
        ∧ (del_zmq s).1.client_open = s.client_open
        ∧ (del_zmq s).2 = []) :=
  ⟨fun _ => ⟨rfl, rfl, rfl, rfl, rfl⟩, fun _ => ⟨rfl, rfl, rfl, rfl⟩⟩

end QSApi
